import Mathlib

/-!
Verification development for the FrameForge video-editing engine
(src/FrameForge.py).  The Python source is shallowly embedded below:
pure computations become Lean functions, Python float arithmetic on the
small exact quantities involved is modelled with exact rationals, the
external encoder and metadata tool are modelled by boolean success
oracles, and each page's run method is modelled as a function returning
an execution trace (invocations attempted, files copied and deleted,
cleanup targets iterated, and the final user-visible outcome, where an
unhandled Python exception is a distinguished outcome).
-/

namespace FrameForge

/-- Mirrors AUDIO_EXTENSIONS (FrameForge.py lines 49-54). -/
def AUDIO_EXTENSIONS : List String :=
  [".mp3", ".aac", ".m4a", ".m4b", ".m4p", ".wav", ".flac", ".alac", ".ogg", ".oga",
   ".opus", ".wma", ".aiff", ".aif", ".ape", ".wv", ".amr", ".awb", ".au", ".ra",
   ".rm", ".mp2", ".mp1", ".ac3", ".dts", ".caf", ".voc", ".tta", ".mka", ".spx",
   ".8svx", ".gsm", ".ivs", ".sln", ".vox", ".rf64", ".msv", ".dvf", ".act", ".dss"]

/-- Mirrors IMAGE_EXTENSIONS (FrameForge.py lines 57-61). -/
def IMAGE_EXTENSIONS : List String :=
  [".jpg", ".jpeg", ".jpe", ".jfif", ".pjpeg", ".pjp",
   ".png", ".gif", ".bmp", ".webp", ".avif", ".apng", ".tif", ".tiff",
   ".heif", ".heic", ".ico", ".cur", ".xbm", ".svg", ".svgz"]

/-- Mirrors VIDEO_EXTENSIONS (FrameForge.py lines 64-69). -/
def VIDEO_EXTENSIONS : List String :=
  [".mp4", ".m4v", ".m4p", ".mov", ".qt", ".avi", ".wmv", ".asf", ".flv", ".f4v",
   ".f4p", ".f4a", ".f4b", ".webm", ".mkv", ".mpg", ".mpeg", ".mp2", ".mpe", ".mpv",
   ".vob", ".dvd", ".3gp", ".3g2", ".svi", ".mxf", ".ogv", ".ogg", ".amv", ".rm",
   ".roq", ".nsv", ".yuv", ".gifv", ".mng", ".rrc", ".mod", ".dv"]

/-- Mirrors AUDIO_CODEC_MAP (FrameForge.py lines 72-91), as an association list. -/
def AUDIO_CODEC_MAP : List (String × String) :=
  [(".mp3", "libmp3lame"), (".flac", "flac"), (".wav", "pcm_s16le"), (".aac", "aac"),
   (".m4a", "aac"), (".alac", "alac"), (".ogg", "libvorbis"), (".opus", "libopus"),
   (".wma", "wmav2"), (".amr", "libopencore_amrnb"), (".aiff", "pcm_s16be"),
   (".au", "pcm_mulaw"), (".ac3", "ac3"), (".dts", "dca"), (".wv", "wavpack"),
   (".tta", "tta"), (".mp2", "mp2"), (".caf", "pcm_s16le")]

/-- Lowercasing of a string, modelling the Python str.lower method on the
ASCII extension strings the program handles. -/
def strLower (s : String) : String := String.mk (s.toList.map Char.toLower)

/-- Portion of a path after the last slash, modelling pathlib's name field
for the forward-slash paths that appear here. -/
def basename (p : String) : String :=
  String.mk ((p.toList.reverse.takeWhile (fun c => c ≠ '/')).reverse)

/-- Mirrors pathlib.PurePath.suffix: the part of the name from its last dot,
provided that dot is neither the first nor the last character of the name;
otherwise the empty string. -/
def path_suffix (p : String) : String :=
  let name := (basename p).toList
  let pre := name.reverse.takeWhile (fun c => c ≠ '.')
  if name.contains '.' && decide (0 < pre.length) && decide (pre.length < name.length - 1) then
    String.mk ('.' :: pre.reverse)
  else ""

/-- Mirrors the idiom pathlib.Path(p).suffix.lower() used by every page. -/
def suffix_lower (p : String) : String := strLower (path_suffix p)

/-- Python's int() applied to a real value: truncation toward zero.  Exact
rationals stand in for Python floats throughout this development. -/
def pyint (q : ℚ) : Int := if 0 ≤ q then ⌊q⌋ else ⌈q⌉

/-- Outcome of one page-level run: which user-facing message was shown, or
which unhandled Python exception escaped. -/
inductive PyExn
  | zeroDivision
  | keyError (key : String)
deriving DecidableEq, Repr

/-- Final user-visible result of a run method, mirroring the MessageUtils
calls in the source, plus a constructor for an unhandled exception. -/
inductive Outcome
  | invalidVideo
  | invalidAudio
  | noAudioStream
  | operationFailed (details : String)
  | operationSuccess (message : String)
  | pyError (e : PyExn)
deriving DecidableEq, Repr

/-- Mirrors the null output file chosen at line 413: NUL on Windows, the
literal path /dev/nul (sic) elsewhere. -/
def null_file (isWindows : Bool) : String := if isWindows then "NUL" else "/dev/nul"

/-- Mirrors line 411: video_bitrate = int((target_size_bytes * 8 - audio_bitrate * duration) / duration)
with target_size_bytes = 9 * 1024 * 1024 and audio_bitrate = 128 * 1024.
Python divides as floats and int() truncates toward zero; for the exact
quotient this is integer T-division, Int.tdiv.  Only called with a nonzero
duration (at zero the Python division raises, which the run model below
represents before reaching this computation). -/
def compress_bitrate (duration : Int) : Int :=
  Int.tdiv (9 * 1024 * 1024 * 8 - 128 * 1024 * duration) duration

/-- Mirrors first_pass_cmd (lines 418-422). -/
def first_pass_cmd (input : String) (vb : Int) (nul : String) : List String :=
  ["ffmpeg", "-y", "-i", input, "-c:v", "libx264", "-b:v", toString vb,
   "-pass", "1", "-an", "-f", "null", nul]

/-- Mirrors second_pass_cmd (lines 430-435). -/
def second_pass_cmd (input output : String) (vb : Int) : List String :=
  ["ffmpeg", "-i", input, "-c:v", "libx264", "-b:v", toString vb,
   "-pass", "2", "-c:a", "aac", "-b:a", "128k", output]

/-- Execution trace of Compress10MBPage.create_video: the subprocess argument
vectors actually run, the file names iterated by the cleanup loop (empty when
the cleanup block never executes), the names actually removed, and the final
outcome. -/
structure CompressTrace where
  invoked : List (List String)
  cleanupTargets : List String
  deleted : List String
  outcome : Outcome
deriving DecidableEq, Repr

/-- Mirrors Compress10MBPage.create_video (lines 392-446).  Parameters ok1 and
ok2 are the success oracle for the two encoder invocations; logExists and
mbtreeExists model os.path.exists for the two statistics files.  Control flow
is copied from the source: extension validation first; the bitrate division
raises ZeroDivisionError when the probed duration is 0; a first-pass failure
returns from inside the first try block, before the second try block whose
finally clause holds the cleanup loop; the cleanup loop runs whenever the
second pass was attempted, in both outcomes. -/
def compress_create_video (input output : String) (duration : Int) (isWindows : Bool)
    (ok1 ok2 : Bool) (logExists mbtreeExists : Bool) : CompressTrace :=
  let input_ext := suffix_lower input
  let output_ext := suffix_lower output
  if !(VIDEO_EXTENSIONS.contains input_ext) || !(VIDEO_EXTENSIONS.contains output_ext) then
    { invoked := [], cleanupTargets := [], deleted := [], outcome := .invalidVideo }
  else if duration = 0 then
    { invoked := [], cleanupTargets := [], deleted := [], outcome := .pyError .zeroDivision }
  else
    let vb := compress_bitrate duration
    let first := first_pass_cmd input vb (null_file isWindows)
    if !ok1 then
      { invoked := [first], cleanupTargets := [], deleted := [],
        outcome := .operationFailed "First pass failed" }
    else
      let second := second_pass_cmd input output vb
      let targets := ["ffmpeg2pass-0.log", "ffmpeg2pass-0.log.mbtree"]
      let removed := (if logExists then ["ffmpeg2pass-0.log"] else []) ++
                     (if mbtreeExists then ["ffmpeg2pass-0.log.mbtree"] else [])
      if ok2 then
        { invoked := [first, second], cleanupTargets := targets, deleted := removed,
          outcome := .operationSuccess "Compression completed successfully." }
      else
        { invoked := [first, second], cleanupTargets := targets, deleted := removed,
          outcome := .operationFailed "Second pass failed" }

/-- Mirrors get_start_and_end_trim (lines 563-571): the selected offset in
seconds, minutes * 60 + seconds + frame / frame_rate, as an exact rational. -/
def trim_offset (fr m s f : Nat) : ℚ := (m : ℚ) * 60 + (s : ℚ) + (f : ℚ) / (fr : ℚ)

/-- Mirrors the command built at lines 588-596: optional seek and cut
arguments are skipped when the corresponding offset equals zero, and the
audio encoder argument is present only when the input has an audio stream. -/
def trim_cmd (input output : String) (start endOff : ℚ) (hasAudio : Bool) : List String :=
  ["ffmpeg", "-i", input] ++
  (if start ≠ 0 then ["-ss", toString start] else []) ++
  (if endOff ≠ 0 then ["-to", toString endOff] else []) ++
  ["-c:v", "libx264"] ++
  (if hasAudio then ["-c:a", "aac"] else []) ++
  [output]

/-- Execution trace of a one-invocation page: invocations attempted and the
final outcome. -/
structure RunTrace where
  invoked : List (List String)
  outcome : Outcome
deriving DecidableEq, Repr

/-- Mirrors TrimPage.create_video (lines 573-603).  A frame rate of zero makes
the offset computation raise ZeroDivisionError in Python, modelled as the
corresponding unhandled-exception outcome; otherwise a selection with
start >= end is rejected with the operation-failed message before any
invocation. -/
def trim_create_video (input output : String) (fr : Nat) (sm ss sf em es ef : Nat)
    (hasAudio : Bool) (ok : Bool) : RunTrace :=
  if !(VIDEO_EXTENSIONS.contains (suffix_lower input)) ||
     !(VIDEO_EXTENSIONS.contains (suffix_lower output)) then
    { invoked := [], outcome := .invalidVideo }
  else if fr = 0 then
    { invoked := [], outcome := .pyError .zeroDivision }
  else
    let start := trim_offset fr sm ss sf
    let endOff := trim_offset fr em es ef
    if endOff ≤ start then
      { invoked := [], outcome := .operationFailed "Start time must be less than end time." }
    else
      let cmd := trim_cmd input output start endOff hasAudio
      { invoked := [cmd],
        outcome := if ok then .operationSuccess "Trim completed successfully."
                   else .operationFailed "Trim failed" }

/-- Mirrors ExtractSoundPage.extract_audio (lines 848-880).  The validation
tests the output extension against AUDIO_EXTENSIONS, while the command
construction indexes AUDIO_CODEC_MAP with that extension; a missing key is the
Python KeyError, raised while building the command, hence before any
invocation. -/
def extract_audio (input output : String) (hasAudio : Bool) (ok : Bool) : RunTrace :=
  let input_ext := suffix_lower input
  let output_ext := suffix_lower output
  if !(VIDEO_EXTENSIONS.contains input_ext) || !hasAudio ||
     !(AUDIO_EXTENSIONS.contains output_ext) then
    if !(VIDEO_EXTENSIONS.contains input_ext) then
      { invoked := [], outcome := .invalidVideo }
    else if !(AUDIO_EXTENSIONS.contains output_ext) then
      { invoked := [], outcome := .invalidAudio }
    else
      { invoked := [], outcome := .noAudioStream }
  else
    match List.lookup output_ext AUDIO_CODEC_MAP with
    | none => { invoked := [], outcome := .pyError (.keyError output_ext) }
    | some codec =>
      { invoked := [["ffmpeg", "-i", input, "-map", "0:a", "-q:a", "0",
                     "-acodec", codec, output]],
        outcome := if ok then .operationSuccess "Audio extraction completed successfully."
                   else .operationFailed "Extraction failed" }

/-- Mirrors the frame-rate half of update_video_frame_rate (lines 327-344):
math.ceil of num / den, then clamped up to 1 when the result is nonpositive.
A zero denominator is the Python ZeroDivisionError, caught by the enclosing
handler, so it yields none. -/
def probe_fps (num den : Int) : Option Int :=
  if den = 0 then none
  else
    let fps := ⌈(num : ℚ) / (den : ℚ)⌉
    some (if fps ≤ 0 then 1 else fps)

/-- Mirrors FFmpegGUI.update_video_frame_rate (lines 320-361).  fpsQuery is
the parsed rational frame rate (none when the tool fails or its output is
unparsable), durQuery the parsed decimal duration (none likewise).  Any
failure lands in the except handler, which only logs: the previously held
pair (frame_rate, video_duration) is returned unchanged.  On full success
both fields are assigned together by one tuple assignment. -/
def update_video_frame_rate (fpsQuery : Option (Int × Int)) (durQuery : Option ℚ)
    (frameRate videoDuration : Int) : Int × Int :=
  match fpsQuery with
  | none => (frameRate, videoDuration)
  | some (num, den) =>
    match probe_fps num den with
    | none => (frameRate, videoDuration)
    | some fps =>
      match durQuery with
      | none => (frameRate, videoDuration)
      | some q => (fps, pyint q)

/-- Mirrors the Python format specifier 02d: decimal rendering padded with
leading zeros to a minimum width of two. -/
def pad2 (n : Nat) : String := if n < 10 then "0" ++ toString n else toString n

/-- Name given to the n-th staged copy by fix_naming (line 824): always the
jpg extension, whatever the source file's extension was. -/
def stagedName (n : Nat) : String := "img-" ++ pad2 n ++ ".jpg"

/-- Mirrors the loop of ImageToVideoPage.fix_naming (lines 819-827): walk the
directory listing, and for each name whose lowercased suffix is an image
extension emit a copy (source, img-NN.jpg), numbering from the given counter. -/
def fix_naming_aux : List String → Nat → List (String × String)
  | [], _ => []
  | image :: rest, num =>
    if IMAGE_EXTENSIONS.contains (suffix_lower image) then
      (image, stagedName num) :: fix_naming_aux rest (num + 1)
    else
      fix_naming_aux rest num

/-- Mirrors ImageToVideoPage.fix_naming: numbering starts at 1 (line 820). -/
def fix_naming (listing : List String) : List (String × String) := fix_naming_aux listing 1

/-- Decides whether a file name matches the glob pattern used by the cleanup
step (line 797): the literal prefix img-, any two characters, the literal
suffix .jpg, and nothing else. -/
def matches_img_glob (s : String) : Bool :=
  let cs := s.toList
  cs.length == 10 && cs.take 4 == "img-".toList && cs.drop 6 == ".jpg".toList

/-- Effect of one shutil.copy on the set of names present in the directory:
the destination name is added when absent and overwritten (no new name) when
present. -/
def add_name (l : List String) (d : String) : List String :=
  if l.contains d then l else l ++ [d]

/-- Directory contents after all staging copies have been performed. -/
def dir_after_copies (listing : List String) (dsts : List String) : List String :=
  dsts.foldl add_name listing

/-- Mirrors the encoder command of lines 781-787; paths are modelled relative
to the images directory. -/
def image_to_video_cmd (output : String) : List String :=
  ["ffmpeg", "-framerate", "1", "-start_number", "1", "-i", "img-%02d.jpg",
   "-vf", "scale=1920:1080:force_original_aspect_ratio=decrease:eval=frame,pad=1920:1080:-1:-1:eval=frame",
   "-c:v", "libx264", "-pix_fmt", "yuv420p", "-r", "24", output]

/-- Execution trace of ImageToVideoPage.create_video: staging copies made,
invocations attempted, names deleted by the post-success glob loop, outcome. -/
structure ImageTrace where
  copies : List (String × String)
  invoked : List (List String)
  deleted : List String
  outcome : Outcome
deriving DecidableEq, Repr

/-- Mirrors ImageToVideoPage.create_video (lines 764-810).  The directory is
modelled by its listing (bare file names).  Staging runs before the single
invocation; the deletion loop runs only inside the success branch of the try
block and removes every name matching img-??.jpg present after staging.  On
invocation failure nothing is deleted. -/
def image_to_video_create (listing : List String) (output : String) (ok : Bool) : ImageTrace :=
  if !(VIDEO_EXTENSIONS.contains (suffix_lower output)) then
    { copies := [], invoked := [], deleted := [], outcome := .invalidVideo }
  else
    let copies := fix_naming listing
    let dirNow := dir_after_copies listing (copies.map Prod.snd)
    let cmd := image_to_video_cmd output
    if ok then
      { copies := copies, invoked := [cmd],
        deleted := dirNow.filter (fun f => matches_img_glob f),
        outcome := .operationSuccess "Image to video conversion completed successfully." }
    else
      { copies := copies, invoked := [cmd], deleted := [],
        outcome := .operationFailed "Image to video failed" }

end FrameForge

namespace FrameForge

-- Sanity checks of the path model on concrete names.
example : path_suffix "a.mp4" = ".mp4" := by decide
example : path_suffix "dir/movie.tar.gz" = ".gz" := by decide
example : path_suffix ".bashrc" = "" := by decide
example : path_suffix "noext" = "" := by decide
example : path_suffix "a." = "" := by decide
example : suffix_lower "A.MP4" = ".mp4" := by decide
example : compress_bitrate 60 = 1127219 := by decide
example : fix_naming ["a.png", "b.txt", "c.JPG"] = [("a.png", "img-01.jpg"), ("c.JPG", "img-02.jpg")] := by decide
example : matches_img_glob "img-01.jpg" = true := by decide
example : matches_img_glob "img-001.jpg" = false := by decide
example : probe_fps 30000 1001 = some 30 := by
  have h : ⌈(30000 : ℚ) / (1001 : ℚ)⌉ = 30 := by
    rw [Int.ceil_eq_iff]
    norm_num
  simp [probe_fps, h]

/-- C1: the claim says size-constrained compression fails with an explicit
ValidationError for durationSeconds <= 0 and never yields a negative or
garbage bitrate.  The code instead raises an unhandled ZeroDivisionError at
duration 0 (before any invocation), and at a negative duration computes a
negative bitrate and invokes the encoder twice with it. -/
theorem C1_duration_nonpositive_crash :
    (compress_create_video "a.mp4" "b.mp4" 0 false true true true true =
      { invoked := [], cleanupTargets := [], deleted := [],
        outcome := .pyError .zeroDivision }) ∧
    compress_bitrate (-1) < 0 ∧
    (compress_create_video "a.mp4" "b.mp4" (-1) false true true true true).invoked.length = 2 := by
  decide

/-- C2: the claim says an audio-extraction output extension outside the codec
table yields a ValidationError and no unhandled lookup failure.  The code
validates against the broader AUDIO_EXTENSIONS list and then indexes
AUDIO_CODEC_MAP, so an extension such as .oga, which is listed as an audio
extension but has no codec entry, passes validation and raises an unhandled
KeyError while the command is being built (hence still zero invocations). -/
theorem C2_unsupported_extension_keyerror :
    AUDIO_EXTENSIONS.contains ".oga" = true ∧
    (AUDIO_CODEC_MAP.map Prod.fst).contains ".oga" = false ∧
    extract_audio "a.mp4" "b.oga" true true =
      { invoked := [], outcome := .pyError (.keyError ".oga") } := by
  decide

/-- C3 counterexample: execution of the compression plan begins (the first
invocation is attempted and fails), yet the cleanup loop never runs: no
cleanup target is iterated and nothing is deleted, refuting the claim that
cleanup is never skipped when the first invocation fails. -/
theorem C3_cleanup_skipped_on_first_failure :
    (compress_create_video "a.mp4" "b.mp4" 60 false false true true true).invoked =
      [first_pass_cmd "a.mp4" 1127219 "/dev/nul"] ∧
    (compress_create_video "a.mp4" "b.mp4" 60 false false true true true).cleanupTargets = [] ∧
    (compress_create_video "a.mp4" "b.mp4" 60 false false true true true).deleted = [] := by
  decide

/-- C4 counterexample: at duration 60 the code computes video bitrate
1,127,219 bps (its audio budget is 128 * 1024 = 131,072 bps), and even the
claim's own expression (9*1024*1024*8 - 128000*60)/60 truncates to 1,130,291;
neither equals the claimed 1,258,831, and the gaps (131,612 and 128,540 bps)
are far beyond rounding. -/
theorem C4_bitrate_value_wrong :
    compress_bitrate 60 = 1127219 ∧
    (1127219 : Int) ≠ 1258831 ∧
    Int.tdiv (9 * 1024 * 1024 * 8 - 128000 * 60) 60 = 1130291 ∧
    (1130291 : Int) ≠ 1258831 := by
  decide

/-- C4 amended: for the 60-second scenario the computed video bitrate is
int((9*1024*1024*8 - 128*1024*60)/60) = 1,127,219 bps, and the resulting plan
contains exactly 2 encoder invocations and exactly 2 cleanup targets. -/
theorem C4_amended_scenario :
    compress_bitrate 60 = 1127219 ∧
    (compress_create_video "a.mp4" "b.mp4" 60 false true true true true).invoked.length = 2 ∧
    (compress_create_video "a.mp4" "b.mp4" 60 false true true true true).cleanupTargets.length = 2 := by
  decide

/-- C3 amended: in the two-pass compression, the cleanup loop runs whenever
the second invocation is attempted, on success and on failure alike, but is
skipped when the first invocation fails; in image-to-video, the staged-copy
deletion loop runs only when the single invocation succeeds. -/
theorem C3_cleanup_amended (input output : String) (d : Int) (w ok2 le me : Bool)
    (listing : List String) (out2 : String)
    (hin : suffix_lower input ∈ VIDEO_EXTENSIONS)
    (hout : suffix_lower output ∈ VIDEO_EXTENSIONS)
    (hd : ¬ d = 0)
    (hout2 : suffix_lower out2 ∈ VIDEO_EXTENSIONS) :
    ((compress_create_video input output d w false ok2 le me).cleanupTargets = [] ∧
     (compress_create_video input output d w true ok2 le me).cleanupTargets =
       ["ffmpeg2pass-0.log", "ffmpeg2pass-0.log.mbtree"]) ∧
    ((image_to_video_create listing out2 false).deleted = [] ∧
     (image_to_video_create listing out2 false).invoked.length = 1) := by
  refine ⟨⟨?_, ?_⟩, ?_, ?_⟩
  · simp [compress_create_video, hin, hout, hd]
  · cases ok2 <;> simp [compress_create_video, hin, hout, hd]
  · simp [image_to_video_create, hout2]
  · simp [image_to_video_create, hout2]

/-- C3 amended witness: the amended cleanup behavior at concrete inputs. -/
theorem C3_cleanup_amended_witness :
    ((compress_create_video "a.mp4" "b.mp4" 60 false false true true true).cleanupTargets = [] ∧
     (compress_create_video "a.mp4" "b.mp4" 60 false true true true true).cleanupTargets =
       ["ffmpeg2pass-0.log", "ffmpeg2pass-0.log.mbtree"]) ∧
    ((image_to_video_create ["a.jpg"] "c.mp4" false).deleted = [] ∧
     (image_to_video_create ["a.jpg"] "c.mp4" false).invoked.length = 1) :=
  C3_cleanup_amended "a.mp4" "b.mp4" 60 false true true true ["a.jpg"] "c.mp4"
    (by decide) (by decide) (by decide) (by decide)

/-- C5 counterexample: a staged copy does not keep its source's extension:
the single png image in the listing is staged as img-01.jpg, whose suffix
.jpg differs from the source suffix .png. -/
theorem C5_staged_copy_changes_extension :
    fix_naming ["a.png"] = [("a.png", "img-01.jpg")] ∧
    path_suffix "a.png" = ".png" ∧
    path_suffix "img-01.jpg" = ".jpg" ∧
    (".jpg" : String) ≠ ".png" := by
  decide

/-- Sources of the staging pairs: the staged sources are exactly the
image-classified names of the listing, in listing order. -/
theorem fix_naming_aux_map_fst (l : List String) (k : Nat) :
    (fix_naming_aux l k).map Prod.fst =
      l.filter fun f => IMAGE_EXTENSIONS.contains (suffix_lower f) := by
  induction l generalizing k with
  | nil => simp [fix_naming_aux]
  | cons f rest ih =>
    by_cases h : suffix_lower f ∈ IMAGE_EXTENSIONS
    · simp [fix_naming_aux, h, ih]
    · simp [fix_naming_aux, h, ih]

/-- Destinations of the staging pairs: the staged names are stagedName
applied to the consecutive counters starting at k. -/
theorem fix_naming_aux_map_snd (l : List String) (k : Nat) :
    (fix_naming_aux l k).map Prod.snd =
      (List.range' k (l.filter fun f =>
        IMAGE_EXTENSIONS.contains (suffix_lower f)).length).map stagedName := by
  induction l generalizing k with
  | nil => simp [fix_naming_aux]
  | cons f rest ih =>
    by_cases h : suffix_lower f ∈ IMAGE_EXTENSIONS
    · simp [fix_naming_aux, h, ih, List.range'_succ]
    · simp [fix_naming_aux, h, ih]

set_option maxRecDepth 4000 in
/-- Staged names with a counter between 1 and 99 match the cleanup glob. -/
theorem stagedName_matches_glob :
    ∀ n, n < 100 → (1 ≤ n → matches_img_glob (stagedName n) = true) := by
  decide

set_option maxRecDepth 8000 in
/-- Staged names are pairwise distinct for counters below 100. -/
theorem stagedName_inj_below_100 :
    ∀ m, m < 100 → ∀ n, n < 100 → stagedName m = stagedName n → m = n := by
  decide

/-- Copying a nodup batch of names, none of which is already present, extends
the directory listing by exactly that batch. -/
theorem dir_after_copies_of_disjoint (ds : List String) (base : List String)
    (hnd : ds.Nodup) (hdisj : ∀ d ∈ ds, d ∉ base) :
    dir_after_copies base ds = base ++ ds := by
  induction ds generalizing base with
  | nil => simp [dir_after_copies]
  | cons d rest ih =>
    have hd : d ∉ base := hdisj d (List.mem_cons_self d rest)
    have h1 : add_name base d = base ++ [d] := by
      simp [add_name, hd]
    have h2 : dir_after_copies base (d :: rest) = dir_after_copies (base ++ [d]) rest := by
      simp [dir_after_copies, h1]
    rw [h2, ih (base ++ [d]) (List.Nodup.of_cons hnd) ?_]
    · rw [List.append_assoc, List.singleton_append]
    · intro e he
      simp only [List.mem_append, List.mem_singleton]
      rintro (hmem | rfl)
      · exact hdisj e (List.mem_cons_of_mem d he) hmem
      · exact (List.nodup_cons.mp hnd).1 he

/-- C5 amended: over any directory listing in which no original name matches
the cleanup glob img-??.jpg and with at most 99 image-classified files, the
staging step copies exactly the image-classified files, in listing order,
to img-01.jpg through img-NN.jpg (two-digit width, 1-indexed, always with the
jpg extension regardless of the source extension), no staged name collides
with an original, and the post-success cleanup deletes exactly the staged
copies, leaving originals and unrecognized files untouched. -/
theorem C5_staging_amended (listing : List String) (output : String)
    (hout : suffix_lower output ∈ VIDEO_EXTENSIONS)
    (hno : ∀ f ∈ listing, matches_img_glob f = false)
    (hcount : (listing.filter fun f =>
      IMAGE_EXTENSIONS.contains (suffix_lower f)).length ≤ 99) :
    (image_to_video_create listing output true).copies.map Prod.fst =
      (listing.filter fun f => IMAGE_EXTENSIONS.contains (suffix_lower f)) ∧
    (image_to_video_create listing output true).copies.map Prod.snd =
      (List.range' 1 (listing.filter fun f =>
        IMAGE_EXTENSIONS.contains (suffix_lower f)).length).map stagedName ∧
    (∀ d ∈ (List.range' 1 (listing.filter fun f =>
        IMAGE_EXTENSIONS.contains (suffix_lower f)).length).map stagedName, d ∉ listing) ∧
    (image_to_video_create listing output true).deleted =
      (List.range' 1 (listing.filter fun f =>
        IMAGE_EXTENSIONS.contains (suffix_lower f)).length).map stagedName := by
  have htr : image_to_video_create listing output true =
      { copies := fix_naming listing,
        invoked := [image_to_video_cmd output],
        deleted := (dir_after_copies listing ((fix_naming listing).map Prod.snd)).filter
          (fun f => matches_img_glob f),
        outcome := .operationSuccess "Image to video conversion completed successfully." } := by
    simp [image_to_video_create, hout]
  have hsnd : (fix_naming listing).map Prod.snd =
      (List.range' 1 (listing.filter fun f =>
        IMAGE_EXTENSIONS.contains (suffix_lower f)).length).map stagedName :=
    fix_naming_aux_map_snd listing 1
  have hmatch : ∀ d ∈ (List.range' 1 (listing.filter fun f =>
      IMAGE_EXTENSIONS.contains (suffix_lower f)).length).map stagedName,
      matches_img_glob d = true := by
    intro d hd
    rcases List.mem_map.mp hd with ⟨i, hi, rfl⟩
    rcases List.mem_range'_1.mp hi with ⟨h1, h2⟩
    exact stagedName_matches_glob i (by omega) h1
  have hdisj : ∀ d ∈ (List.range' 1 (listing.filter fun f =>
      IMAGE_EXTENSIONS.contains (suffix_lower f)).length).map stagedName, d ∉ listing := by
    intro d hd hmem
    have h1 := hmatch d hd
    have h2 := hno d hmem
    rw [h1] at h2
    exact Bool.noConfusion h2
  have hnd : ((List.range' 1 (listing.filter fun f =>
      IMAGE_EXTENSIONS.contains (suffix_lower f)).length).map stagedName).Nodup := by
    apply List.Nodup.map_on ?_ (List.nodup_range' 1 _)
    intro x hx y hy hxy
    rcases List.mem_range'_1.mp hx with ⟨hx1, hx2⟩
    rcases List.mem_range'_1.mp hy with ⟨hy1, hy2⟩
    exact stagedName_inj_below_100 x (by omega) y (by omega) hxy
  have hdir : dir_after_copies listing ((fix_naming listing).map Prod.snd) =
      listing ++ (List.range' 1 (listing.filter fun f =>
        IMAGE_EXTENSIONS.contains (suffix_lower f)).length).map stagedName := by
    rw [hsnd]
    exact dir_after_copies_of_disjoint _ listing hnd hdisj
  have hdel : (dir_after_copies listing ((fix_naming listing).map Prod.snd)).filter
      (fun f => matches_img_glob f) =
      (List.range' 1 (listing.filter fun f =>
        IMAGE_EXTENSIONS.contains (suffix_lower f)).length).map stagedName := by
    rw [hdir, List.filter_append]
    have h1 : listing.filter (fun f => matches_img_glob f) = [] :=
      List.filter_eq_nil_iff.mpr (by intro a ha; simp [hno a ha])
    have h2 : ((List.range' 1 (listing.filter fun f =>
        IMAGE_EXTENSIONS.contains (suffix_lower f)).length).map stagedName).filter
        (fun f => matches_img_glob f) =
        (List.range' 1 (listing.filter fun f =>
          IMAGE_EXTENSIONS.contains (suffix_lower f)).length).map stagedName :=
      List.filter_eq_self.mpr hmatch
    rw [h1, h2, List.nil_append]
  refine ⟨?_, ?_, hdisj, ?_⟩
  · rw [htr]
    exact fix_naming_aux_map_fst listing 1
  · rw [htr]
    exact hsnd
  · rw [htr]
    exact hdel

/-- C5 amended witness: a directory of five recognized images and two
unrecognized files stages exactly img-01.jpg through img-05.jpg and the
post-success cleanup deletes exactly those five staged copies. -/
theorem C5_staging_amended_witness :
    (image_to_video_create ["a.jpg", "b.jpg", "c.jpg", "d.jpg", "e.jpg", "notes.txt", "data.bin"]
        "out.mp4" true).copies.map Prod.snd =
      ["img-01.jpg", "img-02.jpg", "img-03.jpg", "img-04.jpg", "img-05.jpg"] ∧
    (image_to_video_create ["a.jpg", "b.jpg", "c.jpg", "d.jpg", "e.jpg", "notes.txt", "data.bin"]
        "out.mp4" true).deleted =
      ["img-01.jpg", "img-02.jpg", "img-03.jpg", "img-04.jpg", "img-05.jpg"] := by
  have h := C5_staging_amended
    ["a.jpg", "b.jpg", "c.jpg", "d.jpg", "e.jpg", "notes.txt", "data.bin"] "out.mp4"
    (by decide) (by decide) (by decide)
  refine ⟨?_, ?_⟩
  · rw [h.2.1]
    decide
  · rw [h.2.2.2]
    decide

/-- C6: for every valid size-constrained compression request (video-classified
input and output extensions, positive probed duration) the plan is exactly two
invocations in order: pass 1 encodes video-only (flag -an) at the computed
bitrate to the null sink with the pass-1 marker, and pass 2 encodes video at
the computed bitrate plus audio at the fixed 128 kbps to the real output with
the pass-2 marker. -/
theorem C6_two_pass_plan (input output : String) (d : Int) (w le me : Bool)
    (hin : suffix_lower input ∈ VIDEO_EXTENSIONS)
    (hout : suffix_lower output ∈ VIDEO_EXTENSIONS)
    (hd : 0 < d) :
    (compress_create_video input output d w true true le me).invoked =
      [["ffmpeg", "-y", "-i", input, "-c:v", "libx264", "-b:v",
        toString (compress_bitrate d), "-pass", "1", "-an", "-f", "null", null_file w],
       ["ffmpeg", "-i", input, "-c:v", "libx264", "-b:v",
        toString (compress_bitrate d), "-pass", "2", "-c:a", "aac", "-b:a", "128k", output]] := by
  have hd0 : ¬ d = 0 := by omega
  simp [compress_create_video, hin, hout, hd0, first_pass_cmd, second_pass_cmd]

/-- C6 witness: the two-pass plan at a concrete valid request. -/
theorem C6_two_pass_plan_witness :
    (compress_create_video "a.mp4" "b.mp4" 60 false true true true true).invoked =
      [["ffmpeg", "-y", "-i", "a.mp4", "-c:v", "libx264", "-b:v",
        toString (compress_bitrate 60), "-pass", "1", "-an", "-f", "null", null_file false],
       ["ffmpeg", "-i", "a.mp4", "-c:v", "libx264", "-b:v",
        toString (compress_bitrate 60), "-pass", "2", "-c:a", "aac", "-b:a", "128k", "b.mp4"]] :=
  C6_two_pass_plan "a.mp4" "b.mp4" 60 false true true (by decide) (by decide) (by decide)

/-- C7: for every frame rate at least 1 and any duration, a trim request over
video-classified input and output whose resolved start offset is greater than
or equal to its resolved end offset is rejected with the domain error message
and zero invocations. -/
theorem C7_trim_start_ge_end_rejected (input output : String)
    (fr sm ss sf em es ef : Nat) (hasAudio ok : Bool)
    (hin : suffix_lower input ∈ VIDEO_EXTENSIONS)
    (hout : suffix_lower output ∈ VIDEO_EXTENSIONS)
    (hfr : 1 ≤ fr)
    (hge : trim_offset fr em es ef ≤ trim_offset fr sm ss sf) :
    trim_create_video input output fr sm ss sf em es ef hasAudio ok =
      { invoked := [], outcome := .operationFailed "Start time must be less than end time." } := by
  have hfr0 : ¬ fr = 0 := by omega
  simp [trim_create_video, hin, hout, hfr0, hge]

/-- C7 witness: start 5 s versus end 3 s at frame rate 24 is rejected with
zero invocations. -/
theorem C7_trim_witness :
    trim_create_video "a.mp4" "b.mp4" 24 0 5 0 0 3 0 true true =
      { invoked := [], outcome := .operationFailed "Start time must be less than end time." } := by
  apply C7_trim_start_ge_end_rejected
  · decide
  · decide
  · decide
  · show trim_offset 24 0 3 0 ≤ trim_offset 24 0 5 0
    norm_num [trim_offset]

/-- C8: for every successfully parsed probe, the resolved frame rate equals
the ceiling of num/den clamped up to 1 when that ceiling is nonpositive, so
it is always at least 1, and the resolved duration is the reported decimal
seconds truncated to an integer; in particular 30000/1001 resolves to 30. -/
theorem C8_probe_frame_rate :
    (∀ num den : Int, den ≠ 0 → ∀ q : ℚ, ∀ fr dur : Int,
        update_video_frame_rate (some (num, den)) (some q) fr dur =
          ((if ⌈(num : ℚ) / (den : ℚ)⌉ ≤ 0 then 1 else ⌈(num : ℚ) / (den : ℚ)⌉), pyint q) ∧
        1 ≤ (update_video_frame_rate (some (num, den)) (some q) fr dur).1) ∧
    update_video_frame_rate (some (30000, 1001)) (some 60) 0 0 = (30, 60) := by
  constructor
  · intro num den hden q fr dur
    have h1 : update_video_frame_rate (some (num, den)) (some q) fr dur =
        ((if ⌈(num : ℚ) / (den : ℚ)⌉ ≤ 0 then 1 else ⌈(num : ℚ) / (den : ℚ)⌉), pyint q) := by
      simp [update_video_frame_rate, probe_fps, hden]
    refine ⟨h1, ?_⟩
    rw [h1]
    dsimp only
    split
    · omega
    · omega
  · have hc : ⌈(30000 : ℚ) / (1001 : ℚ)⌉ = 30 := by
      rw [Int.ceil_eq_iff]
      norm_num
    have hf : pyint 60 = 60 := by
      rw [pyint, if_pos (by norm_num)]
      rw [show ((60 : ℚ)) = ((60 : Int) : ℚ) by norm_num, Int.floor_intCast]
    simp [update_video_frame_rate, probe_fps, hc, hf]

/-- C8 witness: the general probe characterization applied at 30000/1001 with
duration 60 and stale prior state. -/
theorem C8_probe_witness :
    update_video_frame_rate (some (30000, 1001)) (some 60) 5 7 = (30, 60) := by
  have h := (C8_probe_frame_rate.1 30000 1001 (by norm_num) 60 5 7).1
  have hc : ⌈(30000 : ℚ) / (1001 : ℚ)⌉ = 30 := by
    rw [Int.ceil_eq_iff]
    norm_num
  have hf : pyint 60 = 60 := by
    rw [pyint, if_pos (by norm_num)]
    rw [show ((60 : ℚ)) = ((60 : Int) : ℚ) by norm_num, Int.floor_intCast]
  rw [h]
  simp [hc, hf]

/-- C9: any probe failure, whether the frame-rate output is unparsable, the
rational has a zero denominator, or the duration output is unparsable, leaves
the previously held frame rate and duration both exactly unchanged. -/
theorem C9_probe_failure_preserves_state (fpsQuery : Option (Int × Int))
    (durQuery : Option ℚ) (fr dur : Int)
    (h : fpsQuery = none ∨
         (∃ num den, fpsQuery = some (num, den) ∧ (den = 0 ∨ durQuery = none))) :
    update_video_frame_rate fpsQuery durQuery fr dur = (fr, dur) := by
  rcases h with h | ⟨num, den, hq, h2⟩
  · simp [h, update_video_frame_rate]
  · subst hq
    rcases h2 with h2 | h2
    · simp [update_video_frame_rate, probe_fps, h2]
    · subst h2
      cases hp : probe_fps num den <;> simp [update_video_frame_rate, hp]

/-- C9 witness: a zero-denominator frame-rate probe leaves the prior state
(3, 4) untouched. -/
theorem C9_probe_witness :
    update_video_frame_rate (some (30, 0)) (some 12) 3 4 = (3, 4) :=
  C9_probe_failure_preserves_state _ _ _ _ (Or.inr ⟨30, 0, rfl, Or.inl rfl⟩)

/-- C10: the video and audio extension sets are not disjoint: .ogg, .mp2,
.m4p and .rm are members of both, a path such as clip.ogg classifies as video
input and audio output at once, and an extraction from an .ogg input to an
.ogg output passes both validations and reaches the single invocation. -/
theorem C10_extension_overlap :
    (VIDEO_EXTENSIONS.contains ".ogg" = true ∧ AUDIO_EXTENSIONS.contains ".ogg" = true) ∧
    (VIDEO_EXTENSIONS.contains ".mp2" = true ∧ AUDIO_EXTENSIONS.contains ".mp2" = true) ∧
    (VIDEO_EXTENSIONS.contains ".m4p" = true ∧ AUDIO_EXTENSIONS.contains ".m4p" = true) ∧
    (VIDEO_EXTENSIONS.contains ".rm" = true ∧ AUDIO_EXTENSIONS.contains ".rm" = true) ∧
    (VIDEO_EXTENSIONS.contains (suffix_lower "clip.ogg") = true ∧
     AUDIO_EXTENSIONS.contains (suffix_lower "clip.ogg") = true) ∧
    (extract_audio "in.ogg" "out.ogg" true true).invoked.length = 1 := by
  decide

end FrameForge
